import Mathlib

/-!
Verification of the authentication subsystem of the Flask user-management
backend (`backend/api/v1/app.py`, `backend/api/v1/views/users.py`,
`backend/models/user.py`, `backend/models/engine/db.py`).

The Python handlers are embedded shallowly: the MySQL user table becomes a
`List User`, the Redis blocklist (db 2) becomes an association list from jti
to absolute expiry instant, time is a `Nat` of seconds, and every handler is
a pure function from its inputs and the pre-state to a response and the
post-state.  The parts supplied by external libraries (bcrypt,
flask_jwt_extended) are modelled from the specification's description of
them, as noted on each definition.
-/

namespace FlaskJwt

/-! ## bcrypt (external library, value-space model)

`password_hash` is a MySQL string column.  Semantically every string it can
hold is either a well-formed bcrypt hash — which determines a salt and the
password it was derived from — or malformed.  `bcrypt.checkpw` returns a
`Bool` on a well-formed hash and raises `ValueError("Invalid salt")` on a
malformed one; a raised Python exception is modelled as `Except.error`. -/

/-- The space of strings that can occupy the `password_hash` column:
either a well-formed bcrypt hash (of a given salt and password) or any
other, malformed, string. -/
inductive HashStr
  | bhash (salt : Nat) (pw : String)
  | malformed (s : String)
deriving DecidableEq

/-- `bcrypt.hashpw(pw, salt)`: produces a well-formed hash. -/
def hashpw (pw : String) (salt : Nat) : HashStr := .bhash salt pw

/-- `bcrypt.checkpw(password, h)`: on a well-formed hash, true iff the
password matches the one the hash was derived from; on a malformed hash it
raises `ValueError` (modelled as `Except.error`). -/
def checkpw (password : String) (h : HashStr) : Except String Bool :=
  match h with
  | .bhash _ pw => .ok (pw == password)
  | .malformed _ => .error "ValueError: Invalid salt"

/-! ## User model (`backend/models/user.py`) -/

/-- A row of the `users` table (`models/user.py`).  `password_hash` and
`reset_token` are nullable in practice (`reset_token` explicitly, and
`password_hash` before any password has been assigned). -/
structure User where
  id : String
  username : String
  email : String
  password_hash : Option HashStr
  profile_picture_url : Option String := none
  reset_token : Option String := none
deriving DecidableEq

/-- `User.verify_password` (`models/user.py:36-38`):
`bcrypt.checkpw(password.encode(), self.password_hash.encode())`.
There is no exception handler: a malformed stored hash propagates bcrypt's
`ValueError`, and an absent (`None`) hash raises `AttributeError` on
`.encode()`.  Both uncaught exceptions are modelled as `Except.error`. -/
def User.verify_password (u : User) (password : String) : Except String Bool :=
  match u.password_hash with
  | none => .error "AttributeError"
  | some h => checkpw password h

/-! ## Storage (`backend/models/engine/db.py`)

`filter_by(...).first()` returns the first matching row, `get` fetches by
primary key.  Row mutation followed by `save()` is modelled by rewriting the
first matching element of the list in place; `delete` removes it. -/

/-- `storage.filter_by(User, email=email)` (`db.py:70-75`). -/
def filter_by_email (db : List User) (email : String) : Option User :=
  db.find? (fun u => u.email == email)

/-- `storage.filter_by(User, reset_token=token)` (`db.py:70-75`). -/
def filter_by_reset_token (db : List User) (tok : String) : Option User :=
  db.find? (fun u => u.reset_token == some tok)

/-- `storage.get(User, id)` (`db.py:60-64`). -/
def storage_get (db : List User) (id : String) : Option User :=
  db.find? (fun u => u.id == id)

/-- In-place mutation of the first row matching `p`, committed by
`storage.save()`. -/
def update_first (p : User → Bool) (f : User → User) : List User → List User
  | [] => []
  | u :: rest => if p u then f u :: rest else u :: update_first p f rest

/-- `storage.delete(user); storage.save()`: removes the first row matching
`p`. -/
def delete_first (p : User → Bool) : List User → List User
  | [] => []
  | u :: rest => if p u then rest else u :: delete_first p rest

/-! ## Redis blocklist (`backend/api/v1/app.py`)

The JWT blocklist lives in its own Redis logical database.  It is modelled
as an association list from jti to the absolute instant at which the entry
expires (`SET key "" EX ttl` at time `now` yields expiry `now + ttl`); a key
is present while `now < expiry`. -/

/-- The revocation store: jti paired with its absolute expiry instant. -/
abbrev Blocklist := List (String × Nat)

/-- `jwt_redis_blocklist.set(key, "", ex=ttl)` executed at instant `now`. -/
def bl_set (bl : Blocklist) (key : String) (now ttl : Nat) : Blocklist :=
  (key, now + ttl) :: bl.filter (fun e => e.1 != key)

/-- `jwt_redis_blocklist.get(key) is not None` observed at instant `now`:
an entry counts only until its TTL has elapsed. -/
def bl_get_exists (bl : Blocklist) (key : String) (now : Nat) : Bool :=
  match bl.find? (fun e => e.1 == key) with
  | some e => decide (now < e.2)
  | none => false

/-- The raw stored expiry instant of a key, TTL bookkeeping made visible. -/
def bl_lookup (bl : Blocklist) (key : String) : Option Nat :=
  match bl.find? (fun e => e.1 == key) with
  | some e => some e.2
  | none => none

/-- JWT_ACCESS_TOKEN_EXPIRES = timedelta(hours=1) (`app.py:20-22`),
in seconds. -/
def JWT_ACCESS_TOKEN_EXPIRES : Nat := 3600

/-- JWT_REFRESH_TOKEN_EXPIRES = timedelta(days=30) (`app.py:23-25`),
in seconds. -/
def JWT_REFRESH_TOKEN_EXPIRES : Nat := 2592000

/-- `check_if_token_revoked` (`app.py:63-71`): the blocklist callback is a
bare existence lookup of the jti key. -/
def check_if_token_revoked (bl : Blocklist) (jti : String) (now : Nat) : Bool :=
  bl_get_exists bl jti now

/-- The TTL chosen by `revoke_token` (`app.py:111-115`): the full nominal
lifetime of the token's type — 30 days for `"refresh"`, 1 hour otherwise. -/
def revoke_ttl (token_type : String) : Nat :=
  if token_type == "refresh" then JWT_REFRESH_TOKEN_EXPIRES
  else JWT_ACCESS_TOKEN_EXPIRES

/-- `revoke_token(jti, token_type)` (`app.py:107-118`) executed at instant
`now`: adds the jti to the blocklist with the type's nominal TTL. -/
def revoke_token (bl : Blocklist) (jti : String) (token_type : String)
    (now : Nat) : Blocklist :=
  bl_set bl jti now (revoke_ttl token_type)

/-! ## Session tokens (flask_jwt_extended, external library)

Modelled from the spec: the Token Issuer (§4.2) mints signed tokens carrying
`{user_id, jti, type, fresh, iat, exp}`; `issueAccess` sets
`exp = now + 1h` and `fresh` as given, `issueRefresh` sets
`exp = now + 30d` and `fresh = false` always.  The signature is modelled by
recording the secret the token was signed with. -/

/-- The `type` claim: access or refresh. -/
inductive TokenType
  | access
  | refresh
deriving DecidableEq

/-- The string value of the `type` claim, as it reaches
`revoke_token(jti, token_type)`. -/
def TokenType.claim : TokenType → String
  | .access => "access"
  | .refresh => "refresh"

/-- Deployment configuration: the signing secret (`JWT_SECRET_KEY`). -/
structure Config where
  secret : String
deriving DecidableEq

/-- A decoded session token: claims `{user_id, jti, type, fresh, iat, exp}`
plus the secret its signature was computed with. -/
structure SessionToken where
  user_id : String
  jti : String
  ttype : TokenType
  fresh : Bool
  iat : Nat
  exp : Nat
  sig : String
deriving DecidableEq

/-- Modelled from the spec: `create_access_token(identity, fresh)` —
`type=access`, `issuedAt=now`, `expiresAt=now+1h`, fresh as given, the
caller-supplied fresh uuid `jti`, signed with the configured secret. -/
def create_access_token (cfg : Config) (identity : String) (fresh : Bool)
    (jti : String) (now : Nat) : SessionToken :=
  { user_id := identity, jti := jti, ttype := .access, fresh := fresh,
    iat := now, exp := now + JWT_ACCESS_TOKEN_EXPIRES, sig := cfg.secret }

/-- Modelled from the spec: `create_refresh_token(identity)` —
`type=refresh`, `fresh=false` always, `expiresAt=now+30d`. -/
def create_refresh_token (cfg : Config) (identity : String)
    (jti : String) (now : Nat) : SessionToken :=
  { user_id := identity, jti := jti, ttype := .refresh, fresh := false,
    iat := now, exp := now + JWT_REFRESH_TOKEN_EXPIRES, sig := cfg.secret }

/-- The caller-visible verification failures (spec §4.3/§7). -/
inductive VerificationError
  | invalidToken
  | expiredToken
  | insufficientFreshness
  | revokedToken
deriving DecidableEq

/-- Modelled from the spec: the Token Verifier (§4.3), checks in order —
signature, expiry (`expiresAt > now`), required type, required freshness,
then the blocklist callback `check_if_token_revoked` from `app.py`.  Fail
fast, stop at the first failure. -/
def verify (cfg : Config) (bl : Blocklist) (tok : SessionToken) (now : Nat)
    (requireRefresh requireFresh : Bool) : Except VerificationError SessionToken :=
  if tok.sig != cfg.secret then .error .invalidToken
  else if tok.exp ≤ now then .error .expiredToken
  else if requireRefresh && !(tok.ttype == .refresh) then .error .invalidToken
  else if requireFresh && !tok.fresh then .error .insufficientFreshness
  else if check_if_token_revoked bl tok.jti now then .error .revokedToken
  else .ok tok

/-! ## HTTP surface -/

/-- An HTTP-level outcome: status code plus the distinguishing message of
the JSON body (the `"error"` / `"message"` value). -/
structure Response where
  status : Nat
  body : String
deriving DecidableEq

/-- The responses produced by the `app.py` error callbacks for each
verification failure (`app.py:74-103`); a missing-freshness failure yields
flask_jwt_extended's default 401 `"Fresh token required"` response (the app
registers no custom loader for it). -/
def errResponse : VerificationError → Response
  | .invalidToken => ⟨401, "Invalid token"⟩
  | .expiredToken => ⟨401, "Token has expired"⟩
  | .insufficientFreshness => ⟨401, "Fresh token required"⟩
  | .revokedToken => ⟨401, "Token has been revoked"⟩

/-- Outcome of the `login` view: a 200 with the freshly minted token pair
and user object, a 4xx failure response, or an uncaught exception escaping
the handler (Flask's 500). -/
inductive LoginResult
  | success (access refresh : SessionToken) (uid uname uemail : String)
  | failure (r : Response)
  | serverError (e : String)
deriving DecidableEq

/-- `login` (`users.py:84-121`): look the user up by email; if absent or the
password does not verify, answer 401 `"Invalid email or password"`;
otherwise mint a fresh access token and a refresh token.  The uuids drawn by
the library for the two `jti` claims are passed in as `jtiA`, `jtiR`. -/
def login (db : List User) (cfg : Config) (email password : String)
    (jtiA jtiR : String) (now : Nat) : LoginResult :=
  if email.isEmpty || password.isEmpty then .failure ⟨400, "Missing credentials"⟩
  else
    match filter_by_email db email with
    | none => .failure ⟨401, "Invalid email or password"⟩
    | some user =>
      match user.verify_password password with
      | .error e => .serverError e
      | .ok false => .failure ⟨401, "Invalid email or password"⟩
      | .ok true =>
        .success (create_access_token cfg user.id true jtiA now)
          (create_refresh_token cfg user.id jtiR now)
          user.id user.username user.email

/-- `refresh_token` view (`users.py:124-131`): guarded by
`@jwt_required(refresh=True)`; on success mints a non-fresh access token for
the same identity (fresh uuid `jtiNew`). -/
def refresh_token_view (cfg : Config) (bl : Blocklist) (tok : SessionToken)
    (jtiNew : String) (now : Nat) : Except VerificationError SessionToken :=
  match verify cfg bl tok now true false with
  | .error e => .error e
  | .ok t => .ok (create_access_token cfg t.user_id false jtiNew now)

/-- `logout` (`users.py:134-145`): guarded by `@jwt_required()` (any type);
revokes the presented token's jti with the TTL of its own type. -/
def logout (cfg : Config) (bl : Blocklist) (tok : SessionToken)
    (now : Nat) : Response × Blocklist :=
  match verify cfg bl tok now false false with
  | .error e => (errResponse e, bl)
  | .ok t => (⟨200, "Successfully logged out"⟩,
      revoke_token bl t.jti t.ttype.claim now)

/-- The externally visible side effects of a handler, in execution order. -/
inductive Effect
  | revokeEff (jti token_type : String)
  | deleteEff (user_id : String)
deriving DecidableEq

/-- Result of the `delete_user` view: response, user table, blocklist, and
the side effects in the order the handler performed them. -/
structure DeleteOutcome where
  resp : Response
  users : List User
  bl : Blocklist
  effects : List Effect
deriving DecidableEq

/-- `delete_user` (`users.py:271-292`): guarded by
`@jwt_required(fresh=True)`; 403 when the authenticated identity differs
from the target id; otherwise 404 when the row is absent, else revoke the
presented jti and then delete the row. -/
def delete_user (cfg : Config) (db : List User) (bl : Blocklist)
    (tok : SessionToken) (target_id : String) (now : Nat) : DeleteOutcome :=
  match verify cfg bl tok now false true with
  | .error e => ⟨errResponse e, db, bl, []⟩
  | .ok t =>
    if t.user_id != target_id then
      ⟨⟨403, "Unauthorized to delete this user"⟩, db, bl, []⟩
    else
      match storage_get db target_id with
      | none => ⟨⟨404, "User not found"⟩, db, bl, []⟩
      | some _ =>
        ⟨⟨200, "User deleted successfully"⟩,
          delete_first (fun u => u.id == target_id) db,
          revoke_token bl t.jti t.ttype.claim now,
          [.revokeEff t.jti t.ttype.claim, .deleteEff target_id]⟩

/-- `change_password` (`users.py:197-232`): guarded by
`@jwt_required(fresh=True)`; field presence, current-password check, match
check, length policy, then re-hash (fresh salt `salt`) and save. -/
def change_password (cfg : Config) (db : List User) (bl : Blocklist)
    (tok : SessionToken) (current_password new_password confirm_password : String)
    (salt : Nat) (now : Nat) : Response × List User :=
  match verify cfg bl tok now false true with
  | .error e => (errResponse e, db)
  | .ok t =>
    match storage_get db t.user_id with
    | none => (⟨404, "User not found"⟩, db)
    | some user =>
      if current_password.isEmpty || new_password.isEmpty
          || confirm_password.isEmpty then
        (⟨400, "All password fields are required"⟩, db)
      else
        match user.verify_password current_password with
        | .error e => (⟨500, e⟩, db)
        | .ok false => (⟨400, "Current password is incorrect"⟩, db)
        | .ok true =>
          if new_password != confirm_password then
            (⟨400, "New passwords do not match"⟩, db)
          else if new_password.length < 6 then
            (⟨400, "Password must be at least 6 characters long"⟩, db)
          else
            (⟨200, "Password changed successfully"⟩,
              update_first (fun u => u.id == t.user_id)
                (fun u => { u with password_hash := some (hashpw new_password salt) }) db)

/-- Result of `request_password_reset`: response, the `reset_token` value
of the 200 body (the token is returned directly in the response), and the
user table. -/
structure ResetReqOutcome where
  resp : Response
  token : Option String
  users : List User
deriving DecidableEq

/-- `request_password_reset` (`users.py:295-333`): look the user up by
email (404 when absent), generate a token (the uuid drawn is passed in as
`newTok`), overwrite the user's `reset_token`, and return the token in the
response body. -/
def request_password_reset (db : List User) (email : String)
    (newTok : String) : ResetReqOutcome :=
  if email.isEmpty then ⟨⟨400, "Email is required"⟩, none, db⟩
  else
    match filter_by_email db email with
    | none => ⟨⟨404, "User not found"⟩, none, db⟩
    | some _ =>
      ⟨⟨200, "Password reset token generated"⟩, some newTok,
        update_first (fun u => u.email == email)
          (fun u => { u with reset_token := some newTok }) db⟩

/-- `reset_password_with_token` (`users.py:336-380`): field presence, match
check, length policy, then look the user up by `reset_token` (400
`"Invalid or expired token"` on a miss); on a hit re-hash the new password
(fresh salt `salt`) and null the `reset_token` field. -/
def reset_password_with_token (db : List User)
    (token new_password confirm_password : String)
    (salt : Nat) : Response × List User :=
  if token.isEmpty || new_password.isEmpty || confirm_password.isEmpty then
    (⟨400, "Missing fields"⟩, db)
  else if new_password != confirm_password then
    (⟨400, "Passwords do not match"⟩, db)
  else if new_password.length < 6 then
    (⟨400, "Password must be at least 6 characters long"⟩, db)
  else
    match filter_by_reset_token db token with
    | none => (⟨400, "Invalid or expired token"⟩, db)
    | some _ =>
      (⟨200, "Password reset successfully"⟩,
        update_first (fun u => u.reset_token == some token)
          (fun u => { u with password_hash := some (hashpw new_password salt),
                             reset_token := none }) db)

/-! ## Attribute-level model of `User.__setattr__` (`models/user.py:26-34`)

For the frame property of the password setter the object is modelled at the
Python attribute-dictionary level: an association list from attribute name
to value.  Values assigned through the views are strings or `None`. -/

/-- A Python attribute value on a `User` object: a string, a bcrypt-hash
string, or `None`. -/
inductive PyVal
  | vstr (s : String)
  | vhash (h : HashStr)
  | vnone
deriving DecidableEq

/-- Assignment into the attribute dictionary (what
`super().__setattr__(name, value)` amounts to): overwrite the key if
present, else append it. -/
def dict_set (d : List (String × PyVal)) (k : String) (v : PyVal) :
    List (String × PyVal) :=
  match d with
  | [] => [(k, v)]
  | (k', v') :: rest =>
    if k' == k then (k, v) :: rest else (k', v') :: dict_set rest k v

/-- Attribute lookup in the dictionary. -/
def dict_get (d : List (String × PyVal)) (k : String) : Option PyVal :=
  (d.find? (fun e => e.1 == k)).map (fun e => e.2)

/-- `User.__setattr__(name, value)` (`models/user.py:26-34`) on
string-or-`None` values: when `name == "password"` and the value is truthy,
hash it (fresh salt `salt`) and store only `password_hash`; when the value
is falsy (empty string or `None`) do nothing at all; any other name is set
normally.  No `password` attribute is ever written. -/
def user_setattr (d : List (String × PyVal)) (name : String)
    (value : Option String) (salt : Nat) : List (String × PyVal) :=
  if name == "password" then
    match value with
    | some v => if v.isEmpty then d else dict_set d "password_hash" (.vhash (hashpw v salt))
    | none => d
  else
    dict_set d name (match value with | some v => .vstr v | none => .vnone)

/-! ## Helper lemmas -/

theorem find?_filter_ne (k j : String) (h : j ≠ k) :
    ∀ bl : Blocklist,
      (bl.filter (fun e => e.1 != k)).find? (fun e => e.1 == j) =
        bl.find? (fun e => e.1 == j) := by
  intro bl
  have hkj : (k == j) = false := by simp [Ne.symm h]
  induction bl with
  | nil => rfl
  | cons a t ih =>
    by_cases hk : a.1 = k
    · simp [List.filter_cons, hk, List.find?_cons, hkj, ih]
    · by_cases hj : a.1 = j
      · simp [List.filter_cons, hk, hj, h, List.find?_cons]
      · simp [List.filter_cons, hk, List.find?_cons, hj, ih]

theorem bl_get_exists_set_self (bl : Blocklist) (k : String) (now ttl t : Nat) :
    bl_get_exists (bl_set bl k now ttl) k t = decide (t < now + ttl) := by
  simp [bl_get_exists, bl_set, List.find?_cons]

theorem bl_get_exists_set_other (bl : Blocklist) (k j : String) (now ttl t : Nat)
    (h : j ≠ k) :
    bl_get_exists (bl_set bl k now ttl) j t = bl_get_exists bl j t := by
  have hkj : (k == j) = false := by
    simp
    exact fun he => (h he.symm).elim
  simp [bl_get_exists, bl_set, List.find?_cons, hkj, find?_filter_ne k j h bl]

theorem bl_lookup_set_self (bl : Blocklist) (k : String) (now ttl : Nat) :
    bl_lookup (bl_set bl k now ttl) k = some (now + ttl) := by
  simp [bl_lookup, bl_set, List.find?_cons]

theorem find?_append_of_all_fail (q : User → Bool) :
    ∀ l1 l2 : List User, (∀ y ∈ l1, q y = false) →
      (l1 ++ l2).find? q = l2.find? q := by
  intro l1
  induction l1 with
  | nil => intro l2 _; rfl
  | cons a t ih =>
    intro l2 hall
    have ha : q a = false := hall a (by simp)
    rw [List.cons_append, List.find?_cons_of_neg _ (by simp [ha])]
    exact ih l2 (fun y hy => hall y (by simp [hy]))

theorem update_first_append_of_all_fail (p : User → Bool) (f : User → User) :
    ∀ l1 l2 : List User, (∀ y ∈ l1, p y = false) →
      update_first p f (l1 ++ l2) = l1 ++ update_first p f l2 := by
  intro l1
  induction l1 with
  | nil => intro l2 _; rfl
  | cons a t ih =>
    intro l2 hall
    have ha : p a = false := hall a (by simp)
    simp [update_first, ha]
    exact ih l2 (fun y hy => hall y (by simp [hy]))

theorem update_first_decomp (p : User → Bool) (f : User → User) :
    ∀ (l : List User) (x : User), l.find? p = some x →
      ∃ l1 l2, l = l1 ++ x :: l2 ∧ (∀ y ∈ l1, p y = false) ∧
        update_first p f l = l1 ++ f x :: l2 := by
  intro l
  induction l with
  | nil => intro x hx; simp [List.find?] at hx
  | cons a t ih =>
    intro x hx
    by_cases ha : p a = true
    · rw [List.find?_cons_of_pos _ ha] at hx
      injection hx with hx
      subst hx
      exact ⟨[], t, by simp, by simp, by simp [update_first, ha]⟩
    · have ha' : p a = false := by
        cases hpa : p a
        · rfl
        · exact absurd hpa ha
      rw [List.find?_cons_of_neg _ (by simp [ha'])] at hx
      obtain ⟨l1, l2, hdec, hfail, hupd⟩ := ih x hx
      refine ⟨a :: l1, l2, by simp [hdec], ?_, ?_⟩
      · intro y hy
        rcases List.mem_cons.mp hy with h | h
        · subst h; exact ha'
        · exact hfail y h
      · simp [update_first, ha', hupd]

theorem delete_first_decomp (p : User → Bool) :
    ∀ (l : List User) (x : User), l.find? p = some x →
      ∃ l1 l2, l = l1 ++ x :: l2 ∧ (∀ y ∈ l1, p y = false) ∧
        delete_first p l = l1 ++ l2 := by
  intro l
  induction l with
  | nil => intro x hx; simp [List.find?] at hx
  | cons a t ih =>
    intro x hx
    by_cases ha : p a = true
    · rw [List.find?_cons_of_pos _ ha] at hx
      injection hx with hx
      subst hx
      exact ⟨[], t, by simp, by simp, by simp [delete_first, ha]⟩
    · have ha' : p a = false := by
        cases hpa : p a
        · rfl
        · exact absurd hpa ha
      rw [List.find?_cons_of_neg _ (by simp [ha'])] at hx
      obtain ⟨l1, l2, hdec, hfail, hdel⟩ := ih x hx
      refine ⟨a :: l1, l2, by simp [hdec], ?_, ?_⟩
      · intro y hy
        rcases List.mem_cons.mp hy with h | h
        · subst h; exact ha'
        · exact hfail y h
      · simp [delete_first, ha', hdel]

theorem dict_set_cons (a : String × PyVal) (t : List (String × PyVal))
    (k : String) (v : PyVal) :
    dict_set (a :: t) k v =
      if a.1 == k then (k, v) :: t else a :: dict_set t k v := rfl

theorem dict_get_cons_pos (a : String × PyVal) (t : List (String × PyVal))
    (k : String) (h : (a.1 == k) = true) : dict_get (a :: t) k = some a.2 := by
  simp only [dict_get, List.find?_cons, h]
  rfl

theorem dict_get_cons_neg (a : String × PyVal) (t : List (String × PyVal))
    (k : String) (h : (a.1 == k) = false) : dict_get (a :: t) k = dict_get t k := by
  simp only [dict_get, List.find?_cons, h]

theorem dict_get_set_other (d : List (String × PyVal)) (k k' : String)
    (v : PyVal) (h : k' ≠ k) :
    dict_get (dict_set d k v) k' = dict_get d k' := by
  have hkk : (k == k') = false := by simp [Ne.symm h]
  induction d with
  | nil =>
    show dict_get [(k, v)] k' = dict_get [] k'
    rw [dict_get_cons_neg _ _ _ hkk]
  | cons a t ih =>
    rw [dict_set_cons]
    by_cases hk : (a.1 == k) = true
    · rw [if_pos hk]
      have ha : a.1 = k := by simpa using hk
      have hak' : (a.1 == k') = false := by rw [ha]; exact hkk
      rw [dict_get_cons_neg _ _ _ hkk, dict_get_cons_neg _ _ _ hak']
    · have hkb : (a.1 == k) = false := by simpa using hk
      rw [if_neg hk]
      by_cases hk' : (a.1 == k') = true
      · rw [dict_get_cons_pos _ _ _ hk', dict_get_cons_pos _ _ _ hk']
      · have hk'b : (a.1 == k') = false := by simpa using hk'
        rw [dict_get_cons_neg _ _ _ hk'b, dict_get_cons_neg _ _ _ hk'b, ih]

theorem revoke_ttl_pos (tt : String) : 0 < revoke_ttl tt := by
  unfold revoke_ttl
  by_cases h : (tt == "refresh") = true
  · rw [if_pos h]; decide
  · rw [if_neg h]; decide

theorem check_revoked_after_revoke (bl : Blocklist) (jti tt : String) (now : Nat) :
    check_if_token_revoked (revoke_token bl jti tt now) jti now = true := by
  unfold check_if_token_revoked revoke_token
  rw [bl_get_exists_set_self]
  simp only [decide_eq_true_eq]
  have := revoke_ttl_pos tt
  omega

theorem verify_plain_ok (cfg : Config) (bl : Blocklist) (tok : SessionToken)
    (now : Nat) (h1 : tok.sig = cfg.secret) (h2 : now < tok.exp)
    (h3 : check_if_token_revoked bl tok.jti now = false) :
    verify cfg bl tok now false false = .ok tok := by
  have h2' : ¬(tok.exp ≤ now) := by omega
  simp [verify, h1, h2', h3]

theorem verify_fresh_fails (cfg : Config) (bl : Blocklist) (tok : SessionToken)
    (now : Nat) (h1 : tok.sig = cfg.secret) (h2 : now < tok.exp)
    (h3 : tok.fresh = false) :
    verify cfg bl tok now false true = .error .insufficientFreshness := by
  have h2' : ¬(tok.exp ≤ now) := by omega
  simp [verify, h1, h2', h3]

/-! ## Claim theorems -/

/-- Claim C4, counterexample: `revoke_token` does not give the blocklist
entry the token's remaining lifetime.  An access token issued at 0 with
expiry 3600, revoked at instant 3500 (remaining lifetime 100 s, so the
claimed entry expiry is 3600), actually gets entry expiry
3500 + 3600 = 7100 — the full nominal lifetime. -/
theorem C4_cex :
    bl_lookup (revoke_token [] "j1" TokenType.access.claim 3500) "j1"
        ≠ some (3500 + (3600 - 3500)) ∧
      bl_lookup (revoke_token [] "j1" TokenType.access.claim 3500) "j1"
        = some (3500 + JWT_ACCESS_TOKEN_EXPIRES) := by
  constructor
  · intro h
    have : (7100 : Nat) = 3600 := by
      have h' : some (7100 : Nat) = some 3600 := h
      injection h'
    omega
  · rfl

/-- Claim C4, amended: the TTL of every revocation entry is the full
*nominal* lifetime of the token's type — 3600 s for access (and any
non-refresh type string), 2592000 s for refresh — regardless of the token's
remaining lifetime: the entry stored for the jti always expires exactly at
`now + revoke_ttl token_type`. -/
theorem C4_nominal_ttl (bl : Blocklist) (jti token_type : String) (now : Nat) :
    bl_lookup (revoke_token bl jti token_type now) jti
        = some (now + revoke_ttl token_type) ∧
      revoke_ttl TokenType.access.claim = JWT_ACCESS_TOKEN_EXPIRES ∧
      revoke_ttl TokenType.refresh.claim = JWT_REFRESH_TOKEN_EXPIRES := by
  exact ⟨bl_lookup_set_self bl jti now _, rfl, rfl⟩

/-- Claim C7, counterexample: password verification against a malformed
stored hash does not return false — it raises bcrypt's
`ValueError("Invalid salt")` (modelled as `Except.error`), which
`verify_password` does not catch. -/
theorem C7_cex :
    ({ id := "u1", username := "alice", email := "a@x.com",
       password_hash := some (HashStr.malformed "nothash") } : User).verify_password
        "secret1" = .error "ValueError: Invalid salt" ∧
      ({ id := "u1", username := "alice", email := "a@x.com",
         password_hash := some (HashStr.malformed "nothash") } : User).verify_password
        "secret1" ≠ .ok false := by
  refine ⟨rfl, ?_⟩
  intro h
  exact Except.noConfusion h

/-- Claim C7, amended: `verify_password` fails open, not closed: a malformed
stored hash raises `ValueError` and an absent one raises `AttributeError`,
both propagating uncaught into the caller; only a well-formed stored hash
yields a boolean verdict. -/
theorem C7_malformed_hash_raises (u : User) (pw : String) :
    (∀ s, u.password_hash = some (HashStr.malformed s) →
        u.verify_password pw = .error "ValueError: Invalid salt") ∧
      (u.password_hash = none → u.verify_password pw = .error "AttributeError") ∧
      (∀ salt q, u.password_hash = some (HashStr.bhash salt q) →
        u.verify_password pw = .ok (q == pw)) := by
  refine ⟨?_, ?_, ?_⟩
  · intro s hs
    simp [User.verify_password, hs, checkpw]
  · intro hn
    simp [User.verify_password, hn]
  · intro salt q hq
    simp [User.verify_password, hq, checkpw]

theorem C7_malformed_hash_raises_witness :
    ({ id := "u1", username := "alice", email := "a@x.com",
       password_hash := some (HashStr.malformed "zzz") } : User).verify_password
        "pw" = .error "ValueError: Invalid salt" ∧
      ({ id := "u1", username := "alice", email := "a@x.com",
         password_hash := none } : User).verify_password
        "pw" = .error "AttributeError" ∧
      ({ id := "u1", username := "alice", email := "a@x.com",
         password_hash := some (HashStr.bhash 3 "pw") } : User).verify_password
        "pw" = .ok ("pw" == "pw") := by
  refine ⟨?_, ?_, ?_⟩
  · exact (C7_malformed_hash_raises _ "pw").1 "zzz" rfl
  · exact (C7_malformed_hash_raises _ "pw").2.1 rfl
  · exact (C7_malformed_hash_raises _ "pw").2.2 3 "pw" rfl

/-- Claim C8: a failed login responds with the same status 401 and the same
body `"Invalid email or password"` whether the email is unknown or the
password is wrong for an existing account, so the response does not reveal
account existence. -/
theorem C8_login_uniform (db : List User) (cfg : Config)
    (email1 pw1 email2 pw2 jA jR : String) (now : Nat) (u : User)
    (he1 : email1.isEmpty = false) (hp1 : pw1.isEmpty = false)
    (he2 : email2.isEmpty = false) (hp2 : pw2.isEmpty = false)
    (h1 : filter_by_email db email1 = none)
    (h2 : filter_by_email db email2 = some u)
    (h3 : u.verify_password pw2 = .ok false) :
    login db cfg email1 pw1 jA jR now
        = .failure ⟨401, "Invalid email or password"⟩ ∧
      login db cfg email2 pw2 jA jR now
        = .failure ⟨401, "Invalid email or password"⟩ := by
  constructor
  · simp [login, he1, hp1, h1]
  · simp [login, he2, hp2, h2, h3]

theorem C8_login_uniform_witness :
    login [{ id := "u1", username := "alice", email := "a@x.com",
             password_hash := some (HashStr.bhash 1 "secret1") }] ⟨"s"⟩
        "b@x.com" "whatever" "ja" "jr" 0
      = .failure ⟨401, "Invalid email or password"⟩ ∧
    login [{ id := "u1", username := "alice", email := "a@x.com",
             password_hash := some (HashStr.bhash 1 "secret1") }] ⟨"s"⟩
        "a@x.com" "wrongpw" "ja" "jr" 0
      = .failure ⟨401, "Invalid email or password"⟩ := by
  exact C8_login_uniform _ ⟨"s"⟩ "b@x.com" "whatever" "a@x.com" "wrongpw"
    "ja" "jr" 0 _ rfl rfl rfl rfl rfl rfl rfl

/-- Claim C10: assigning a falsy value (`None` or the empty string) to a
User's `password` attribute is a complete no-op on the attribute dictionary
(in particular `password_hash` keeps its previous value); no `password`
attribute is ever written for any assigned value; and a truthy assignment
writes exactly the re-derived `password_hash`. -/
theorem C10_password_setattr (d : List (String × PyVal)) (salt : Nat) :
    user_setattr d "password" none salt = d ∧
      user_setattr d "password" (some "") salt = d ∧
      (∀ v : Option String,
        dict_get (user_setattr d "password" v salt) "password"
          = dict_get d "password") ∧
      (∀ v : String, v.isEmpty = false →
        user_setattr d "password" (some v) salt
          = dict_set d "password_hash" (.vhash (hashpw v salt))) := by
  refine ⟨rfl, rfl, ?_, ?_⟩
  · intro v
    match v with
    | none => rfl
    | some s =>
      by_cases hs : s.isEmpty = true
      · simp [user_setattr, hs]
      · have hs' : s.isEmpty = false := by simpa using hs
        simp only [user_setattr, hs', show ("password" == "password") = true from rfl,
          if_true, Bool.false_eq_true, if_false]
        exact dict_get_set_other d "password_hash" "password" _ (by decide)
  · intro v hv
    simp [user_setattr, hv]

theorem C10_password_setattr_witness :
    user_setattr [("username", PyVal.vstr "alice")] "password" (some "") 5
        = [("username", PyVal.vstr "alice")] ∧
      user_setattr [("username", PyVal.vstr "alice")] "password" (some "pw1234") 5
        = dict_set [("username", PyVal.vstr "alice")] "password_hash"
            (.vhash (hashpw "pw1234" 5)) := by
  refine ⟨(C10_password_setattr [("username", PyVal.vstr "alice")] 5).2.1, ?_⟩
  exact (C10_password_setattr [("username", PyVal.vstr "alice")] 5).2.2.2 "pw1234" rfl

/-- Claim C1, counterexample: the access token (iat 0, exp 3600) revoked at
instant 3000 still has a live blocklist entry at instant 4000 (the entry
expires at 6600), yet `verify` at 4000 fails with ExpiredToken, not
RevokedToken — expiry is checked before the blocklist, so during the part
of the entry's lifetime beyond the token's own expiry the claimed failure
reason is wrong. -/
theorem C1_cex :
    check_if_token_revoked (revoke_token [] "j1" "access" 3000) "j1" 4000 = true ∧
      verify ⟨"s"⟩ (revoke_token [] "j1" "access" 3000)
          ⟨"u1", "j1", .access, true, 0, 3600, "s"⟩ 4000 false false
        = .error .expiredToken := by
  constructor <;> rfl

/-- Claim C1, amended: once `revoke_token` has been called with a token's
jti (at an instant `t` between its issuance and its expiry), every
subsequent `verify` of that exact token fails — with RevokedToken at every
instant before the token's own expiry, and with ExpiredToken from the
expiry on.  The blocklist entry (full nominal TTL) outlives the token, so
verification never succeeds again. -/
theorem C1_revoked_forever (cfg : Config) (bl : Blocklist) (tok : SessionToken)
    (t t' : Nat) (hsig : tok.sig = cfg.secret)
    (hexp : tok.exp = tok.iat + revoke_ttl tok.ttype.claim)
    (hiat : tok.iat ≤ t) (htt' : t ≤ t') :
    (t' < tok.exp →
      verify cfg (revoke_token bl tok.jti tok.ttype.claim t) tok t' false false
        = .error .revokedToken) ∧
    (tok.exp ≤ t' →
      verify cfg (revoke_token bl tok.jti tok.ttype.claim t) tok t' false false
        = .error .expiredToken) := by
  constructor
  · intro h
    have hne : ¬(tok.exp ≤ t') := by omega
    have hrev : check_if_token_revoked
        (revoke_token bl tok.jti tok.ttype.claim t) tok.jti t' = true := by
      unfold check_if_token_revoked revoke_token
      rw [bl_get_exists_set_self]
      simp only [decide_eq_true_eq]
      omega
    simp [verify, hsig, hne, hrev]
  · intro h
    simp [verify, hsig, h]

theorem C1_revoked_forever_witness :
    verify ⟨"s"⟩ (revoke_token [] "j1" TokenType.access.claim 3000)
        ⟨"u1", "j1", .access, true, 0, 3600, "s"⟩ 3100 false false
      = .error .revokedToken ∧
    verify ⟨"s"⟩ (revoke_token [] "j1" TokenType.access.claim 3000)
        ⟨"u1", "j1", .access, true, 0, 3600, "s"⟩ 5000 false false
      = .error .expiredToken := by
  constructor
  · exact (C1_revoked_forever ⟨"s"⟩ [] ⟨"u1", "j1", .access, true, 0, 3600, "s"⟩
      3000 3100 rfl rfl (by decide) (by decide)).1 (by decide)
  · exact (C1_revoked_forever ⟨"s"⟩ [] ⟨"u1", "j1", .access, true, 0, 3600, "s"⟩
      3000 5000 rfl rfl (by decide) (by decide)).2 (by decide)

/-- Claim C2: for matching credentials, `login` issues an access token with
fresh=true and a refresh token with fresh=false, and both tokens pass plain
verification immediately after issuance. -/
theorem C2_login_fresh_pair (db : List User) (cfg : Config) (bl : Blocklist)
    (email password jtiA jtiR : String) (now : Nat) (u : User)
    (he : email.isEmpty = false) (hp : password.isEmpty = false)
    (hu : filter_by_email db email = some u)
    (hpw : u.verify_password password = .ok true)
    (hA : check_if_token_revoked bl jtiA now = false)
    (hR : check_if_token_revoked bl jtiR now = false) :
    login db cfg email password jtiA jtiR now
        = .success (create_access_token cfg u.id true jtiA now)
            (create_refresh_token cfg u.id jtiR now) u.id u.username u.email ∧
      (create_access_token cfg u.id true jtiA now).fresh = true ∧
      (create_refresh_token cfg u.id jtiR now).fresh = false ∧
      verify cfg bl (create_access_token cfg u.id true jtiA now) now false false
        = .ok (create_access_token cfg u.id true jtiA now) ∧
      verify cfg bl (create_refresh_token cfg u.id jtiR now) now false false
        = .ok (create_refresh_token cfg u.id jtiR now) := by
  refine ⟨by simp [login, he, hp, hu, hpw], rfl, rfl, ?_, ?_⟩
  · refine verify_plain_ok cfg bl _ now rfl ?_ hA
    show now < now + JWT_ACCESS_TOKEN_EXPIRES
    unfold JWT_ACCESS_TOKEN_EXPIRES
    omega
  · refine verify_plain_ok cfg bl _ now rfl ?_ hR
    show now < now + JWT_REFRESH_TOKEN_EXPIRES
    unfold JWT_REFRESH_TOKEN_EXPIRES
    omega

theorem C2_login_fresh_pair_witness :
    login [{ id := "u1", username := "alice", email := "a@x.com",
             password_hash := some (HashStr.bhash 1 "secret1") }] ⟨"s"⟩
        "a@x.com" "secret1" "ja" "jr" 0
      = .success (create_access_token ⟨"s"⟩ "u1" true "ja" 0)
          (create_refresh_token ⟨"s"⟩ "u1" "jr" 0) "u1" "alice" "a@x.com" ∧
    verify ⟨"s"⟩ [] (create_access_token ⟨"s"⟩ "u1" true "ja" 0) 0 false false
      = .ok (create_access_token ⟨"s"⟩ "u1" true "ja" 0) ∧
    verify ⟨"s"⟩ [] (create_refresh_token ⟨"s"⟩ "u1" "jr" 0) 0 false false
      = .ok (create_refresh_token ⟨"s"⟩ "u1" "jr" 0) := by
  have h := C2_login_fresh_pair
    [{ id := "u1", username := "alice", email := "a@x.com",
       password_hash := some (HashStr.bhash 1 "secret1") }] ⟨"s"⟩ []
    "a@x.com" "secret1" "ja" "jr" 0
    { id := "u1", username := "alice", email := "a@x.com",
      password_hash := some (HashStr.bhash 1 "secret1") }
    rfl rfl rfl rfl rfl rfl
  exact ⟨h.1, h.2.2.2.1, h.2.2.2.2⟩

/-- Claim C9: `logout` revokes only the jti presented in the request: that
jti is revoked afterwards, the blocklist status of every other jti at every
instant is unchanged, and verification of any token carrying a different
jti is entirely unaffected (in particular the other half of the pair issued
at the same login remains valid). -/
theorem C9_logout_frame (cfg : Config) (bl : Blocklist) (tok : SessionToken)
    (now : Nat) (hv : verify cfg bl tok now false false = .ok tok) :
    (logout cfg bl tok now).1 = ⟨200, "Successfully logged out"⟩ ∧
      check_if_token_revoked (logout cfg bl tok now).2 tok.jti now = true ∧
      (∀ j, j ≠ tok.jti → ∀ t,
        check_if_token_revoked (logout cfg bl tok now).2 j t
          = check_if_token_revoked bl j t) ∧
      (∀ tok2 : SessionToken, tok2.jti ≠ tok.jti → ∀ t rr rf,
        verify cfg (logout cfg bl tok now).2 tok2 t rr rf
          = verify cfg bl tok2 t rr rf) := by
  have hlog : logout cfg bl tok now
      = (⟨200, "Successfully logged out"⟩,
          revoke_token bl tok.jti tok.ttype.claim now) := by
    simp [logout, hv]
  refine ⟨by rw [hlog], ?_, ?_, ?_⟩
  · rw [hlog]
    exact check_revoked_after_revoke bl tok.jti tok.ttype.claim now
  · intro j hj t
    rw [hlog]
    exact bl_get_exists_set_other bl tok.jti j now _ t hj
  · intro tok2 hj t rr rf
    rw [hlog]
    have hfr : check_if_token_revoked
        (revoke_token bl tok.jti tok.ttype.claim now) tok2.jti t
          = check_if_token_revoked bl tok2.jti t :=
      bl_get_exists_set_other bl tok.jti tok2.jti now _ t hj
    simp only [verify, hfr]

theorem C9_logout_frame_witness :
    (logout ⟨"s"⟩ [] ⟨"u1", "j1", .access, true, 0, 3600, "s"⟩ 10).1
        = ⟨200, "Successfully logged out"⟩ ∧
      check_if_token_revoked
        (logout ⟨"s"⟩ [] ⟨"u1", "j1", .access, true, 0, 3600, "s"⟩ 10).2 "j1" 10
        = true ∧
      check_if_token_revoked
        (logout ⟨"s"⟩ [] ⟨"u1", "j1", .access, true, 0, 3600, "s"⟩ 10).2 "j2" 10
        = check_if_token_revoked [] "j2" 10 ∧
      verify ⟨"s"⟩ (logout ⟨"s"⟩ [] ⟨"u1", "j1", .access, true, 0, 3600, "s"⟩ 10).2
          ⟨"u1", "j2", .refresh, false, 0, 2592000, "s"⟩ 10 false false
        = verify ⟨"s"⟩ [] ⟨"u1", "j2", .refresh, false, 0, 2592000, "s"⟩ 10 false false := by
  have h := C9_logout_frame ⟨"s"⟩ [] ⟨"u1", "j1", .access, true, 0, 3600, "s"⟩ 10 rfl
  exact ⟨h.1, h.2.1, h.2.2.1 "j2" (by decide) 10,
    h.2.2.2 ⟨"u1", "j2", .refresh, false, 0, 2592000, "s"⟩ (by decide) 10 false false⟩

/-- Claim C3: an access token obtained from the refresh endpoint carries
fresh=false; both fresh-gated operations — change_password and delete_user
— reject it with 401 `"Fresh token required"` (InsufficientFreshness),
while plain verification still accepts it on ordinary protected
endpoints. -/
theorem C3_refresh_gating (cfg : Config) (bl bl2 : Blocklist)
    (tok a : SessionToken) (jtiNew : String) (now now2 : Nat) (db : List User)
    (cur new conf target : String) (salt : Nat)
    (hr : refresh_token_view cfg bl tok jtiNew now = .ok a)
    (hexp : now2 < a.exp)
    (hnr : check_if_token_revoked bl2 a.jti now2 = false) :
    a.fresh = false ∧
      change_password cfg db bl2 a cur new conf salt now2
        = (⟨401, "Fresh token required"⟩, db) ∧
      delete_user cfg db bl2 a target now2
        = ⟨⟨401, "Fresh token required"⟩, db, bl2, []⟩ ∧
      verify cfg bl2 a now2 false false = .ok a := by
  unfold refresh_token_view at hr
  cases hvr : verify cfg bl tok now true false with
  | error e =>
    rw [hvr] at hr
    exact absurd hr (by simp)
  | ok t =>
    rw [hvr] at hr
    injection hr with hr
    subst hr
    have hgate := verify_fresh_fails cfg bl2
      (create_access_token cfg t.user_id false jtiNew now) now2 rfl hexp rfl
    refine ⟨rfl, ?_, ?_, ?_⟩
    · simp [change_password, hgate, errResponse]
    · simp [delete_user, hgate, errResponse]
    · exact verify_plain_ok cfg bl2 _ now2 rfl hexp hnr

theorem C3_refresh_gating_witness :
    (create_access_token ⟨"s"⟩ "u1" false "ja2" 50).fresh = false ∧
      change_password ⟨"s"⟩ [] [] (create_access_token ⟨"s"⟩ "u1" false "ja2" 50)
          "a" "b" "c" 7 100
        = (⟨401, "Fresh token required"⟩, []) ∧
      delete_user ⟨"s"⟩ [] [] (create_access_token ⟨"s"⟩ "u1" false "ja2" 50)
          "u1" 100
        = ⟨⟨401, "Fresh token required"⟩, [], [], []⟩ ∧
      verify ⟨"s"⟩ [] (create_access_token ⟨"s"⟩ "u1" false "ja2" 50) 100 false false
        = .ok (create_access_token ⟨"s"⟩ "u1" false "ja2" 50) := by
  exact C3_refresh_gating ⟨"s"⟩ [] [] ⟨"u1", "jr", .refresh, false, 0, 2592000, "s"⟩
    (create_access_token ⟨"s"⟩ "u1" false "ja2" 50) "ja2" 50 100 [] "a" "b" "c" "u1" 7
    rfl (by decide) rfl

/-- Claim C5: when the authenticated subject differs from the target user
id, `delete_user` answers 403 Forbidden and changes no state (no users
removed, no revocations, no effects); when they match and the row exists,
the presented token's jti is revoked and the user record deleted, with the
revocation strictly preceding the deletion in the handler's effect
trace. -/
theorem C5_delete_account (cfg : Config) (db : List User) (bl : Blocklist)
    (tok : SessionToken) (target : String) (now : Nat)
    (hv : verify cfg bl tok now false true = .ok tok) :
    (tok.user_id ≠ target →
      delete_user cfg db bl tok target now
        = ⟨⟨403, "Unauthorized to delete this user"⟩, db, bl, []⟩) ∧
    (tok.user_id = target → ∀ u, storage_get db target = some u →
      (delete_user cfg db bl tok target now).resp
          = ⟨200, "User deleted successfully"⟩ ∧
        check_if_token_revoked (delete_user cfg db bl tok target now).bl
          tok.jti now = true ∧
        (delete_user cfg db bl tok target now).effects
          = [.revokeEff tok.jti tok.ttype.claim, .deleteEff target] ∧
        ((db.filter (fun x => x.id == target)).length ≤ 1 →
          storage_get (delete_user cfg db bl tok target now).users target
            = none)) := by
  constructor
  · intro h
    have hb : (tok.user_id != target) = true := by simp [h]
    simp [delete_user, hv, hb]
  · intro h u hu
    have hb : (tok.user_id != target) = false := by simp [h]
    have hD : delete_user cfg db bl tok target now
        = ⟨⟨200, "User deleted successfully"⟩,
            delete_first (fun x => x.id == target) db,
            revoke_token bl tok.jti tok.ttype.claim now,
            [.revokeEff tok.jti tok.ttype.claim, .deleteEff target]⟩ := by
      simp [delete_user, hv, hb, hu]
    refine ⟨by rw [hD], ?_, by rw [hD], ?_⟩
    · rw [hD]
      exact check_revoked_after_revoke bl tok.jti tok.ttype.claim now
    · intro hlen
      rw [hD]
      have hu' : List.find? (fun x : User => x.id == target) db = some u := hu
      obtain ⟨l1, l2, hdec, hfail, hdel⟩ :=
        delete_first_decomp (fun x => x.id == target) db u hu'
      have hl2 : ∀ y ∈ l2, (fun x : User => x.id == target) y = false := by
        have hpu : (u.id == target) = true := by
          have h := List.find?_some hu'
          simpa using h
        have hfilter : (db.filter (fun x => x.id == target)).length
            = ((l1.filter (fun x => x.id == target)).length
                + (l2.filter (fun x => x.id == target)).length) + 1 := by
          rw [hdec]
          simp [List.filter_append, List.filter_cons, hpu]
          omega
        have hnil : (l2.filter (fun x : User => x.id == target)).length = 0 := by
          omega
        intro y hy
        have := List.filter_eq_nil_iff.mp (List.length_eq_zero.mp hnil) y hy
        simpa using this
      show storage_get (delete_first (fun x => x.id == target) db) target = none
      rw [hdel]
      show List.find? (fun x : User => x.id == target) (l1 ++ l2) = none
      rw [find?_append_of_all_fail _ l1 l2 hfail]
      exact List.find?_eq_none.mpr (fun y hy => by simp [hl2 y hy])

theorem C5_delete_account_witness :
    delete_user ⟨"s"⟩
        [{ id := "u1", username := "alice", email := "a@x.com",
           password_hash := some (HashStr.bhash 1 "secret1") }] []
        ⟨"u1", "j1", .access, true, 0, 3600, "s"⟩ "u2" 10
      = ⟨⟨403, "Unauthorized to delete this user"⟩,
          [{ id := "u1", username := "alice", email := "a@x.com",
             password_hash := some (HashStr.bhash 1 "secret1") }], [], []⟩ ∧
    (delete_user ⟨"s"⟩
        [{ id := "u1", username := "alice", email := "a@x.com",
           password_hash := some (HashStr.bhash 1 "secret1") }] []
        ⟨"u1", "j1", .access, true, 0, 3600, "s"⟩ "u1" 10).effects
      = [.revokeEff "j1" TokenType.access.claim, .deleteEff "u1"] ∧
    check_if_token_revoked
        (delete_user ⟨"s"⟩
          [{ id := "u1", username := "alice", email := "a@x.com",
             password_hash := some (HashStr.bhash 1 "secret1") }] []
          ⟨"u1", "j1", .access, true, 0, 3600, "s"⟩ "u1" 10).bl "j1" 10 = true ∧
    storage_get
        (delete_user ⟨"s"⟩
          [{ id := "u1", username := "alice", email := "a@x.com",
             password_hash := some (HashStr.bhash 1 "secret1") }] []
          ⟨"u1", "j1", .access, true, 0, 3600, "s"⟩ "u1" 10).users "u1" = none := by
  have h1 := (C5_delete_account ⟨"s"⟩
    [{ id := "u1", username := "alice", email := "a@x.com",
       password_hash := some (HashStr.bhash 1 "secret1") }] []
    ⟨"u1", "j1", .access, true, 0, 3600, "s"⟩ "u2" 10 rfl).1 (by decide)
  have h2 := (C5_delete_account ⟨"s"⟩
    [{ id := "u1", username := "alice", email := "a@x.com",
       password_hash := some (HashStr.bhash 1 "secret1") }] []
    ⟨"u1", "j1", .access, true, 0, 3600, "s"⟩ "u1" 10 rfl).2 rfl
    { id := "u1", username := "alice", email := "a@x.com",
      password_hash := some (HashStr.bhash 1 "secret1") } rfl
  exact ⟨h1, h2.2.2.1, h2.2.1, h2.2.2.2 (by decide)⟩

theorem find?_cons_pos_user (p : User → Bool) (a : User) (t : List User)
    (h : p a = true) : (a :: t).find? p = some a := by
  simp only [List.find?_cons, h]

theorem find?_cons_neg_user (p : User → Bool) (a : User) (t : List User)
    (h : p a = false) : (a :: t).find? p = t.find? p := by
  simp only [List.find?_cons, h]

theorem update_first_cons (p : User → Bool) (f : User → User) (a : User)
    (t : List User) :
    update_first p f (a :: t)
      = if p a then f a :: t else a :: update_first p f t := rfl

/-- Claim C6: for a registered user, `requestReset(email)` followed
immediately by a confirm with the returned token and a valid new password
(length ≥ 6, matching confirmation) succeeds; afterwards the old password no
longer verifies and the new one does, and a second confirm with the same,
now-consumed, token fails with 400 `"Invalid or expired token"` — the
`reset_token` field was nulled, so the token is single-use. -/
theorem C6_reset_roundtrip (db : List User) (email newTok old_pw new_pw : String)
    (u : User) (s0 salt : Nat) (db1 db2 : List User) (r2 : Response)
    (he : email.isEmpty = false)
    (htok : newTok.isEmpty = false)
    (hnp : new_pw.isEmpty = false)
    (hlen : ¬(new_pw.length < 6))
    (hfind : filter_by_email db email = some u)
    (hhash : u.password_hash = some (HashStr.bhash s0 old_pw))
    (hneq : old_pw ≠ new_pw)
    (hfreshTok : filter_by_reset_token db newTok = none)
    (hdb1 : (request_password_reset db email newTok).users = db1)
    (hconf : reset_password_with_token db1 newTok new_pw new_pw salt = (r2, db2)) :
    u.verify_password old_pw = .ok true ∧
      (request_password_reset db email newTok).resp
        = ⟨200, "Password reset token generated"⟩ ∧
      (request_password_reset db email newTok).token = some newTok ∧
      r2 = ⟨200, "Password reset successfully"⟩ ∧
      filter_by_email db2 email
        = some { u with password_hash := some (hashpw new_pw salt),
                        reset_token := none } ∧
      User.verify_password
          { u with password_hash := some (hashpw new_pw salt), reset_token := none }
          old_pw = .ok false ∧
      User.verify_password
          { u with password_hash := some (hashpw new_pw salt), reset_token := none }
          new_pw = .ok true ∧
      reset_password_with_token db2 newTok new_pw new_pw salt
        = (⟨400, "Invalid or expired token"⟩, db2) := by
  have hfind' : List.find? (fun x : User => x.email == email) db = some u := hfind
  have hPe_u : (u.email == email) = true := by
    have h := List.find?_some hfind'
    simpa using h
  have hreq : request_password_reset db email newTok
      = ⟨⟨200, "Password reset token generated"⟩, some newTok,
          update_first (fun x => x.email == email)
            (fun x => { x with reset_token := some newTok }) db⟩ := by
    simp [request_password_reset, he, hfind]
  obtain ⟨l1, l2, hdec, hfail, hupd⟩ :=
    update_first_decomp (fun x => x.email == email)
      (fun x => { x with reset_token := some newTok }) db u hfind'
  have hdb1' : db1 = l1 ++ { u with reset_token := some newTok } :: l2 := by
    rw [← hdb1, hreq]
    exact hupd
  have hallTok : ∀ y ∈ db, (y.reset_token == some newTok) = false := by
    intro y hy
    have h := List.find?_eq_none.mp hfreshTok y hy
    simpa using h
  have hl1Tok : ∀ y ∈ l1, (y.reset_token == some newTok) = false :=
    fun y hy => hallTok y (by rw [hdec]; exact List.mem_append_left _ hy)
  have hl2Tok : ∀ y ∈ l2, (y.reset_token == some newTok) = false :=
    fun y hy => hallTok y
      (by rw [hdec]; exact List.mem_append_right _ (List.mem_cons_of_mem _ hy))
  have hft : filter_by_reset_token db1 newTok
      = some { u with reset_token := some newTok } := by
    rw [hdb1']
    show List.find? (fun x : User => x.reset_token == some newTok)
      (l1 ++ { u with reset_token := some newTok } :: l2) = _
    rw [find?_append_of_all_fail _ l1 _ hl1Tok]
    exact find?_cons_pos_user _ _ _ (by simp)
  have hconf1 : reset_password_with_token db1 newTok new_pw new_pw salt
      = (⟨200, "Password reset successfully"⟩,
          update_first (fun x => x.reset_token == some newTok)
            (fun x => { x with password_hash := some (hashpw new_pw salt),
                               reset_token := none }) db1) := by
    simp [reset_password_with_token, htok, hnp, hlen, hft]
  have hupd2 : update_first (fun x => x.reset_token == some newTok)
      (fun x => { x with password_hash := some (hashpw new_pw salt),
                         reset_token := none }) db1
      = l1 ++ { u with password_hash := some (hashpw new_pw salt),
                       reset_token := none } :: l2 := by
    rw [hdb1']
    rw [update_first_append_of_all_fail _ _ l1 _ hl1Tok]
    rw [update_first_cons]
    rw [if_pos (by simp :
      (({ u with reset_token := some newTok } : User).reset_token == some newTok)
        = true)]
  have hpair : (r2, db2) = (⟨200, "Password reset successfully"⟩,
      l1 ++ { u with password_hash := some (hashpw new_pw salt),
                     reset_token := none } :: l2) := by
    rw [← hconf, hconf1, hupd2]
  rw [Prod.mk.injEq] at hpair
  obtain ⟨hr2, hdb2⟩ := hpair
  have hnone2 : filter_by_reset_token db2 newTok = none := by
    rw [hdb2]
    show List.find? (fun x : User => x.reset_token == some newTok)
      (l1 ++ { u with password_hash := some (hashpw new_pw salt),
                      reset_token := none } :: l2) = none
    rw [find?_append_of_all_fail _ l1 _ hl1Tok]
    rw [find?_cons_neg_user _ _ _ (by simp)]
    exact List.find?_eq_none.mpr (fun y hy => by simp [hl2Tok y hy])
  refine ⟨?_, by rw [hreq], by rw [hreq], hr2, ?_, ?_, ?_, ?_⟩
  · simp [User.verify_password, hhash, checkpw]
  · rw [hdb2]
    show List.find? (fun x : User => x.email == email)
      (l1 ++ { u with password_hash := some (hashpw new_pw salt),
                      reset_token := none } :: l2) = _
    rw [find?_append_of_all_fail _ l1 _ hfail]
    exact find?_cons_pos_user _ _ _ (by simpa using hPe_u)
  · simp [User.verify_password, checkpw, hashpw, Ne.symm hneq]
  · simp [User.verify_password, checkpw, hashpw]
  · simp [reset_password_with_token, htok, hnp, hlen, hnone2]

theorem C6_reset_roundtrip_witness :
    User.verify_password
        { id := "u1", username := "alice", email := "a@x.com",
          password_hash := some (hashpw "newpass1" 2), reset_token := none }
        "oldpass1" = .ok false ∧
      User.verify_password
        { id := "u1", username := "alice", email := "a@x.com",
          password_hash := some (hashpw "newpass1" 2), reset_token := none }
        "newpass1" = .ok true ∧
      reset_password_with_token
          [{ id := "u1", username := "alice", email := "a@x.com",
             password_hash := some (hashpw "newpass1" 2), reset_token := none }]
          "tok-1" "newpass1" "newpass1" 2
        = (⟨400, "Invalid or expired token"⟩,
            [{ id := "u1", username := "alice", email := "a@x.com",
               password_hash := some (hashpw "newpass1" 2), reset_token := none }]) := by
  have h := C6_reset_roundtrip
    [{ id := "u1", username := "alice", email := "a@x.com",
       password_hash := some (HashStr.bhash 1 "oldpass1") }]
    "a@x.com" "tok-1" "oldpass1" "newpass1"
    { id := "u1", username := "alice", email := "a@x.com",
      password_hash := some (HashStr.bhash 1 "oldpass1") }
    1 2
    [{ id := "u1", username := "alice", email := "a@x.com",
       password_hash := some (HashStr.bhash 1 "oldpass1"),
       reset_token := some "tok-1" }]
    [{ id := "u1", username := "alice", email := "a@x.com",
       password_hash := some (hashpw "newpass1" 2), reset_token := none }]
    ⟨200, "Password reset successfully"⟩
    rfl rfl rfl (by decide) rfl rfl (by decide) rfl rfl rfl
  exact ⟨h.2.2.2.2.2.1, h.2.2.2.2.2.2.1, h.2.2.2.2.2.2.2⟩

end FlaskJwt
